import Mathlib

/-!
# Verification of the KeyClaim TypeScript SDK core

Shallow embedding of the `KeyClaimClient` class (`src/index.ts`): the data
model, the pure response generator (including executable SHA-256 and
HMAC-SHA256, modelling node's `crypto`), the error classifier
`handleError`, and the three remote operations `createChallenge`,
`validateChallenge` and the composite `validate`.

Modelling conventions:
- JavaScript strings are Lean `String`s; where the code feeds a string to
  `crypto.update`, the embedding applies `strBytes` (UTF-8 encoding) first,
  exactly as node does.
- The HTTP transport (axios) is an oracle: a `Transport` record mapping each
  request body to either a success payload or a failure object
  (`AxiosError`: optional `response`, truthiness of `request`, `message`).
  Each operation returns its result together with the list of requests it
  issued, embedding the sequence of `axiosInstance.post` calls.
- JavaScript truthiness: `a || b` on strings is `jsOr` (empty string falls
  through); an absent (`undefined`) field is `Option.none`, and `optS`
  collapses an optional string to `""` for truthiness tests, exactly
  matching how `||` conflates `undefined` and `""`.
- A thrown `KeyClaimError`, when re-caught and cast to `AxiosError` (as in
  `validate`'s catch block), has no `response` and no `request` field and
  keeps only its `message`: `KeyClaimError.toAxiosError`.
-/

deriving instance DecidableEq for Except

/-- JavaScript `a || b` for strings: `""` is falsy and falls through. -/
def jsOr (a b : String) : String := if a = "" then b else a

/-- Collapse an optional (possibly `undefined`) string for a `||` chain:
`undefined` and `""` are both falsy. -/
def optS (o : Option String) : String := o.getD ""

/-- JavaScript `a || b` for an optional integer field (`options.ttl || 30`):
`undefined` and `0` are falsy. -/
def jsOrInt (o : Option Int) (d : Int) : Int :=
  match o with
  | none => d
  | some t => if t = 0 then d else t

/-- `KeyClaimError` from `src/index.ts`: message plus optional `code` and
`statusCode`. -/
structure KeyClaimError where
  message : String
  code : Option String := none
  statusCode : Option Nat := none
deriving DecidableEq, Repr

/-- The body of a failed HTTP response as far as the SDK inspects it:
optional `error` and `message` strings, and whether a `valid` key is
present (`'valid' in data`; only presence is tested by the code). -/
structure ErrorBody where
  error : Option String := none
  message : Option String := none
  hasValid : Bool := false
deriving DecidableEq, Repr

/-- The `response` field of an axios failure: HTTP status and optional body. -/
structure AxiosResponse where
  status : Nat
  data : Option ErrorBody := none
deriving DecidableEq, Repr

/-- An axios failure object as inspected by `handleError` and
`validateChallenge`: optional `response`, truthiness of `request`, and a
`message` (where `""` stands for an absent or empty message — `||` cannot
tell them apart). -/
structure AxiosError where
  response : Option AxiosResponse := none
  request : Bool := false
  message : String := ""
deriving DecidableEq, Repr

/-- A caught `KeyClaimError` cast to `AxiosError` (as in `validate`'s catch
block): it has neither a `response` nor a `request` property, only its
`message`. -/
def KeyClaimError.toAxiosError (e : KeyClaimError) : AxiosError :=
  { response := none, request := false, message := e.message }

/-- `KeyClaimClient.handleError` from `src/index.ts`, lines 328-354: the
three-tier error classifier. -/
def handleError (error : AxiosError) (defaultMessage : String) : KeyClaimError :=
  match error.response with
  | some r =>
      let errorData := r.data
      let errorMessage :=
        jsOr (optS (errorData.bind ErrorBody.error))
          (jsOr (optS (errorData.bind ErrorBody.message)) error.message)
      { message := jsOr errorMessage defaultMessage
        code := errorData.bind ErrorBody.error
        statusCode := some r.status }
  | none =>
      if error.request then
        { message := "Network error: No response received from server"
          code := some "network_error"
          statusCode := none }
      else
        { message := jsOr error.message defaultMessage
          code := some "unknown_error"
          statusCode := none }

/-!
## Executable SHA-256 and HMAC-SHA256

Model of node's `crypto.createHash('sha256')` / `crypto.createHmac('sha256', key)`
(FIPS 180-4 / RFC 2104), operating on byte lists. All recursion is structural
(fuel-based where needed) so every definition reduces in the kernel.
-/

/-- Truncation to a 32-bit word. -/
def w32 (n : Nat) : Nat := n % 4294967296

/-- 32-bit right rotation. -/
def rotr (n x : Nat) : Nat := w32 ((x >>> n) ||| (x <<< (32 - n)))

/-- SHA-256 choice function. -/
def shaCh (x y z : Nat) : Nat := (x &&& y) ^^^ ((x ^^^ 4294967295) &&& z)

/-- SHA-256 majority function. -/
def shaMaj (x y z : Nat) : Nat := (x &&& y) ^^^ (x &&& z) ^^^ (y &&& z)

/-- SHA-256 big sigma 0. -/
def bigSigma0 (x : Nat) : Nat := rotr 2 x ^^^ rotr 13 x ^^^ rotr 22 x

/-- SHA-256 big sigma 1. -/
def bigSigma1 (x : Nat) : Nat := rotr 6 x ^^^ rotr 11 x ^^^ rotr 25 x

/-- SHA-256 small sigma 0. -/
def smallSigma0 (x : Nat) : Nat := rotr 7 x ^^^ rotr 18 x ^^^ (x >>> 3)

/-- SHA-256 small sigma 1. -/
def smallSigma1 (x : Nat) : Nat := rotr 17 x ^^^ rotr 19 x ^^^ (x >>> 10)

/-- The eight 32-bit words of a SHA-256 hash state. -/
structure Sha256State where
  a : Nat
  b : Nat
  c : Nat
  d : Nat
  e : Nat
  f : Nat
  g : Nat
  h : Nat
deriving DecidableEq, Repr

/-- SHA-256 initial hash value (FIPS 180-4, in decimal). -/
def sha256Init : Sha256State :=
  ⟨1779033703, 3144134277, 1013904242, 2773480762,
   1359893119, 2600822924, 528734635, 1541459225⟩

/-- The 64 SHA-256 round constants (FIPS 180-4, in decimal). -/
def sha256K : List Nat :=
  [1116352408, 1899447441, 3049323471, 3921009573, 961987163, 1508970993,
   2453635748, 2870763221, 3624381080, 310598401, 607225278, 1426881987,
   1925078388, 2162078206, 2614888103, 3248222580, 3835390401, 4022224774,
   264347078, 604807628, 770255983, 1249150122, 1555081692, 1996064986,
   2554220882, 2821834349, 2952996808, 3210313671, 3336571891, 3584528711,
   113926993, 338241895, 666307205, 773529912, 1294757372, 1396182291,
   1695183700, 1986661051, 2177026350, 2456956037, 2730485921, 2820302411,
   3259730800, 3345764771, 3516065817, 3600352804, 4094571909, 275423344,
   430227734, 506948616, 659060556, 883997877, 958139571, 1322822218,
   1537002063, 1747873779, 1955562222, 2024104815, 2227730452, 2361852424,
   2428436474, 2756734187, 3204031479, 3329325298]

/-- One SHA-256 compression round. -/
def sha256Round (s : Sha256State) (k w : Nat) : Sha256State :=
  let t1 := w32 (s.h + bigSigma1 s.e + shaCh s.e s.f s.g + k + w)
  let t2 := w32 (bigSigma0 s.a + shaMaj s.a s.b s.c)
  ⟨w32 (t1 + t2), s.a, s.b, s.c, w32 (s.d + t1), s.e, s.f, s.g⟩

/-- Message-schedule extension: `acc` holds the schedule so far in reverse
(most recent word first); extends it by `fuel` words. -/
def sha256Extend : Nat → List Nat → List Nat
  | 0, acc => acc.reverse
  | fuel + 1, acc =>
      sha256Extend fuel
        (w32 (smallSigma1 (acc.getD 1 0) + acc.getD 6 0 +
              smallSigma0 (acc.getD 14 0) + acc.getD 15 0) :: acc)

/-- The 64-word message schedule of a 16-word block. -/
def sha256Schedule (block : List Nat) : List Nat := sha256Extend 48 block.reverse

/-- Run the rounds over the paired round constants and schedule words. -/
def sha256Rounds : List Nat → List Nat → Sha256State → Sha256State
  | k :: ks, w :: ws, s => sha256Rounds ks ws (sha256Round s k w)
  | _, _, s => s

/-- Compress one 16-word block into the hash state. -/
def sha256Compress (hv : Sha256State) (block : List Nat) : Sha256State :=
  let s := sha256Rounds sha256K (sha256Schedule block) hv
  ⟨w32 (hv.a + s.a), w32 (hv.b + s.b), w32 (hv.c + s.c), w32 (hv.d + s.d),
   w32 (hv.e + s.e), w32 (hv.f + s.f), w32 (hv.g + s.g), w32 (hv.h + s.h)⟩

/-- Big-endian packing of bytes into 32-bit words (drops a trailing
incomplete group; padded input is always a multiple of 4). -/
def bytesToWords : List Nat → List Nat
  | b0 :: b1 :: b2 :: b3 :: rest =>
      ((b0 % 256) * 16777216 + (b1 % 256) * 65536 + (b2 % 256) * 256 + b3 % 256) ::
        bytesToWords rest
  | _ => []

/-- Split a word list into 16-word blocks (fuel-based for structural
recursion; called with `fuel = ws.length`). -/
def chunksOf16 : Nat → List Nat → List (List Nat)
  | 0, _ => []
  | _, [] => []
  | fuel + 1, ws => ws.take 16 :: chunksOf16 fuel (ws.drop 16)

/-- Big-endian 8-byte encoding of a 64-bit length. -/
def be8 (n : Nat) : List Nat :=
  [n / 72057594037927936 % 256, n / 281474976710656 % 256,
   n / 1099511627776 % 256, n / 4294967296 % 256,
   n / 16777216 % 256, n / 65536 % 256, n / 256 % 256, n % 256]

/-- SHA-256 padding: append `0x80`, zeros to 56 mod 64, then the bit length. -/
def sha256Pad (msg : List Nat) : List Nat :=
  msg ++ 128 :: (List.replicate ((119 - msg.length % 64) % 64) 0 ++ be8 (msg.length * 8))

/-- Big-endian bytes of one 32-bit word. -/
def word4 (w : Nat) : List Nat :=
  [w / 16777216 % 256, w / 65536 % 256, w / 256 % 256, w % 256]

/-- SHA-256 digest (32 bytes) of a byte list. -/
def sha256 (msg : List Nat) : List Nat :=
  let ws := bytesToWords (sha256Pad msg)
  let final := (chunksOf16 ws.length ws).foldl sha256Compress sha256Init
  word4 final.a ++ word4 final.b ++ word4 final.c ++ word4 final.d ++
    word4 final.e ++ word4 final.f ++ word4 final.g ++ word4 final.h

/-- HMAC-SHA256 (RFC 2104) of `msg` keyed by `key` (block size 64). -/
def hmacSha256 (key msg : List Nat) : List Nat :=
  let k0 := if 64 < key.length then sha256 key else key
  let kp := k0 ++ List.replicate (64 - k0.length) 0
  sha256 ((kp.map fun b => (b % 256) ^^^ 92) ++
          sha256 ((kp.map fun b => (b % 256) ^^^ 54) ++ msg))

/-- Lowercase hex digit for a value below 16. -/
def hexDigitChar (n : Nat) : Char :=
  if n < 10 then Char.ofNat (48 + n) else Char.ofNat (87 + n)

/-- Hex characters of a byte list, two per byte. -/
def hexChars : List Nat → List Char
  | [] => []
  | b :: rest => hexDigitChar (b / 16 % 16) :: hexDigitChar (b % 16) :: hexChars rest

/-- `digest('hex')`: lowercase hex string of a byte list. -/
def hexOfBytes (l : List Nat) : String := String.mk (hexChars l)

/-- UTF-8 encoding of one character. -/
def utf8Encode (c : Char) : List Nat :=
  let n := c.toNat
  if n < 128 then [n]
  else if n < 2048 then [192 + n / 64, 128 + n % 64]
  else if n < 65536 then [224 + n / 4096, 128 + n / 64 % 64, 128 + n % 64]
  else [240 + n / 262144, 128 + n / 4096 % 64, 128 + n / 64 % 64, 128 + n % 64]

/-- UTF-8 bytes of a string, as fed to `crypto.update`. -/
def strBytes (s : String) : List Nat := (s.toList.map utf8Encode).flatten

/-!
## The response generator and the client operations
-/

/-- A JavaScript value passed as `customData`. A structured (non-string)
value carries its `JSON.stringify` image directly, since the SDK only ever
serializes it; `num` and `bool` are the primitive cases the truthiness
check distinguishes (`JSON.stringify` on an integer or boolean agrees with
`toString`). -/
inductive JsValue where
  | str (s : String)
  | num (n : Int)
  | bool (b : Bool)
  | obj (serialized : String)
deriving DecidableEq, Repr

/-- JavaScript truthiness of a `JsValue`: `""`, `0` and `false` are falsy;
every object is truthy. -/
def jsTruthy : JsValue → Bool
  | .str s => !(s = "")
  | .num n => !(n = 0)
  | .bool b => b
  | .obj _ => true

/-- Truthiness of an optional `customData` argument (`undefined` is falsy). -/
def jsTruthyOpt : Option JsValue → Bool
  | none => false
  | some v => jsTruthy v

/-- The `KeyClaimError` thrown when the custom method lacks custom data. -/
def missingCustomDataError : KeyClaimError :=
  { message := "Custom data is required for custom method" }

/-- `KeyClaimClient.generateResponse` from `src/index.ts`, lines 204-237.
The client's `this.secret` is the first argument; the `method` is a string
(the TypeScript union is erased at runtime and the code has a default
branch for other values). Fallible: local errors are `Except.error`. -/
def generateResponse (secret challenge : String) (method : String)
    (customData : Option JsValue) : Except KeyClaimError String :=
  match method with
  | "echo" => .ok challenge
  | "hmac" => .ok (hexOfBytes (hmacSha256 (strBytes secret) (strBytes challenge)))
  | "hash" => .ok (hexOfBytes (sha256 (strBytes (challenge ++ secret))))
  | "custom" =>
      match customData with
      | none => .error missingCustomDataError
      | some (.str s) =>
          if s = "" then .error missingCustomDataError
          else .ok (hexOfBytes (sha256 (strBytes (challenge ++ ":" ++ s))))
      | some (.num n) =>
          if n = 0 then .error missingCustomDataError
          else .ok (hexOfBytes (sha256 (strBytes (challenge ++ ":" ++ toString n))))
      | some (.bool b) =>
          if b then .ok (hexOfBytes (sha256 (strBytes (challenge ++ ":" ++ "true"))))
          else .error missingCustomDataError
      | some (.obj s) => .ok (hexOfBytes (sha256 (strBytes (challenge ++ ":" ++ s))))
  | _ => .error { message := "Unknown response method: " ++ method }

/-- A constructed client: immutable `apiKey` and `secret`
(`baseUrl` is the fixed decoded constant and carries no information). -/
structure KeyClaimClient where
  apiKey : String
  secret : String
deriving DecidableEq, Repr

/-- The two constructor call shapes: structured config object
(`{apiKey, secret?}`) or a positional API-key string. -/
inductive ConfigArg where
  | obj (apiKey : String) (secret : Option String)
  | str (apiKey : String)
deriving DecidableEq, Repr

/-- The apiKey a config argument carries. -/
def ConfigArg.apiKeyOf : ConfigArg → String
  | .obj k _ => k
  | .str s => s

/-- `String.prototype.startsWith`, modelled on the character list (the
core `String.startsWith` is substring-based and does not reduce in the
kernel). -/
def strStartsWith (s pre : String) : Bool := pre.toList.isPrefixOf s.toList

/-- The construction-time `KeyClaimError` for a bad API key. -/
def invalidApiKeyError : KeyClaimError :=
  { message := "Invalid API key format. API key must start with \"kc_\"" }

/-- The `KeyClaimClient` constructor from `src/index.ts`, lines 127-154:
normalizes the two call shapes, defaults the secret to the API key
(`secret || apiKey`, so an empty secret also falls back), then validates
the key eagerly — `!apiKey || !apiKey.startsWith('kc_')` throws before the
transport is even configured (no network activity is possible: the model
takes no transport). -/
def mkKeyClaimClient (config : ConfigArg) (secret : Option String) :
    Except KeyClaimError KeyClaimClient :=
  let apiKey := config.apiKeyOf
  let sec :=
    match config with
    | .str s => jsOr (optS secret) s
    | .obj k osec => jsOr (optS osec) k
  if apiKey = "" || !(strStartsWith apiKey "kc_") then
    .error invalidApiKeyError
  else
    .ok { apiKey := apiKey, secret := sec }

/-- Request body of `POST /challenge/create`. -/
structure CreateBody where
  ttl : Int
deriving DecidableEq, Repr

/-- Request body of `POST /challenge/validate`. -/
structure ValidateBody where
  challenge : String
  response : String
  decryptedChallenge : Option String := none
deriving DecidableEq, Repr

/-- Payload of a successful challenge creation. -/
structure CreateChallengeResponse where
  challenge : String
  expires_in : Int
  encrypted : Option Bool := none
deriving DecidableEq, Repr

/-- Quota block of a validation payload. -/
inductive QuotaLimit where
  | num (n : Nat)
  | unlimited
deriving DecidableEq, Repr

/-- Quota information returned alongside a validation. -/
structure Quota where
  used : Nat
  remaining : Nat
  quota : QuotaLimit
deriving DecidableEq, Repr

/-- Payload of a validation call. -/
structure ValidateChallengeResponse where
  valid : Bool
  signature : Option String := none
  quota : Option Quota := none
  error : Option String := none
deriving DecidableEq, Repr

/-- The transport oracle: what each remote endpoint answers for a given
request body — either a payload or an axios failure object. -/
structure Transport where
  create : CreateBody → Except AxiosError CreateChallengeResponse
  validateCall : ValidateBody → Except AxiosError ValidateChallengeResponse

/-- One issued remote request, for tracing call order. -/
inductive Request where
  | create (body : CreateBody)
  | validateReq (body : ValidateBody)
deriving DecidableEq, Repr

/-- `KeyClaimClient.createChallenge` from `src/index.ts`, lines 168-181:
sends `{ttl: options.ttl || 30}` and classifies any failure with default
message "Failed to create challenge". Returns the result paired with the
requests issued. -/
def createChallenge (tp : Transport) (ttl : Option Int) :
    Except KeyClaimError CreateChallengeResponse × List Request :=
  let body : CreateBody := { ttl := jsOrInt ttl 30 }
  match tp.create body with
  | .ok p => (.ok p, [.create body])
  | .error e => (.error (handleError e "Failed to create challenge"), [.create body])

/-- `KeyClaimClient.validateChallenge` from `src/index.ts`, lines 258-285:
posts the three fields; a failure whose body carries a `valid` key is
reinterpreted as `{valid: false, error: data.error || 'Validation failed'}`;
any other failure is classified with default "Failed to validate challenge". -/
def validateChallenge (tp : Transport) (options : ValidateBody) :
    Except KeyClaimError ValidateChallengeResponse × List Request :=
  match tp.validateCall options with
  | .ok p => (.ok p, [.validateReq options])
  | .error e =>
      match e.response with
      | some r =>
          match r.data with
          | some d =>
              if d.hasValid then
                (.ok { valid := false
                       error := some (jsOr (optS d.error) "Validation failed") },
                 [.validateReq options])
              else
                (.error (handleError e "Failed to validate challenge"), [.validateReq options])
          | none => (.error (handleError e "Failed to validate challenge"), [.validateReq options])
      | none => (.error (handleError e "Failed to validate challenge"), [.validateReq options])

/-- `KeyClaimClient.validate` from `src/index.ts`, lines 306-323: the
composite flow. Each step's thrown `KeyClaimError` is caught and passed
through `handleError` again (cast to an axios error, so with no `response`
or `request` field) under default message "Validation flow failed". -/
def validate (tp : Transport) (secret : String) (method : String) (ttl : Int)
    (customData : Option JsValue) :
    Except KeyClaimError ValidateChallengeResponse × List Request :=
  let step1 := createChallenge tp (some ttl)
  match step1.1 with
  | .error e => (.error (handleError e.toAxiosError "Validation flow failed"), step1.2)
  | .ok cp =>
      match generateResponse secret cp.challenge method customData with
      | .error e => (.error (handleError e.toAxiosError "Validation flow failed"), step1.2)
      | .ok resp =>
          let step2 := validateChallenge tp
            { challenge := cp.challenge, response := resp, decryptedChallenge := none }
          match step2.1 with
          | .error e =>
              (.error (handleError e.toAxiosError "Validation flow failed"), step1.2 ++ step2.2)
          | .ok v => (.ok v, step1.2 ++ step2.2)

/-!
## Auxiliary definitions for the verified claims

Spec-side vocabulary and the concrete transports / failure objects used by
witnesses and counterexamples.
-/

/-- Whether a character is a lowercase hexadecimal digit. -/
def isHexChar (c : Char) : Bool :=
  (48 ≤ c.toNat && c.toNat ≤ 57) || (97 ≤ c.toNat && c.toNat ≤ 102)

/-- First non-empty (JavaScript-truthy) string in the list, else the
default: the semantics of a `||` fallback chain, stated spec-side. -/
def firstTruthy : List String → String → String
  | [], d => d
  | s :: rest, d => if s = "" then firstTruthy rest d else s

/-- A transport whose two endpoints both succeed. -/
def tpOk : Transport :=
  { create := fun _ => .ok { challenge := "abc", expires_in := 30 }
    validateCall := fun _ => .ok { valid := true } }

/-- A transport that answers the happy path with a signed, quota-free
validation payload. -/
def tpHappy : Transport :=
  { create := fun _ => .ok { challenge := "abc", expires_in := 30 }
    validateCall := fun _ => .ok { valid := true, signature := some "sig" } }

/-- A transport whose create endpoint fails with HTTP 500 and a structured
body naming "Server error". -/
def tpCreateFail : Transport :=
  { create := fun _ =>
      .error { response := some { status := 500, data := some { error := some "Server error" } } }
    validateCall := fun _ => .ok { valid := true } }

/-- A transport whose validate endpoint fails with HTTP 400 but a body
carrying a `valid` key and error "Invalid response". -/
def tpValidateRejected : Transport :=
  { create := fun _ => .ok { challenge := "c", expires_in := 30 }
    validateCall := fun _ =>
      .error { response := some { status := 400
                                  data := some { error := some "Invalid response"
                                                 hasValid := true } } } }

/-- Like `tpValidateRejected` but the body's error string is present and
empty. -/
def tpValidateRejectedEmpty : Transport :=
  { create := fun _ => .ok { challenge := "c", expires_in := 30 }
    validateCall := fun _ =>
      .error { response := some { status := 400
                                  data := some { error := some "", hasValid := true } } } }

/-- A failure carrying a 401 response whose body names "Unauthorized". -/
def axServerRejection : AxiosError :=
  { response := some { status := 401, data := some { error := some "Unauthorized" } } }

/-- A failure whose body has a present-but-empty `error` and a non-empty
`message`. -/
def axEmptyError : AxiosError :=
  { response := some { status := 500
                       data := some { error := some "", message := some "Server error message" } } }

/-!
## Helper lemmas
-/

theorem isHexChar_hexDigitChar {n : Nat} (h : n < 16) : isHexChar (hexDigitChar n) = true := by
  have H : ∀ m < 16, isHexChar (hexDigitChar m) = true := by decide
  exact H n h

theorem hexChars_length (l : List Nat) : (hexChars l).length = 2 * l.length := by
  induction l with
  | nil => rfl
  | cons b t ih => simp [hexChars, ih]; ring

theorem hexChars_hex (l : List Nat) : ∀ c ∈ hexChars l, isHexChar c = true := by
  induction l with
  | nil => simp [hexChars]
  | cons b t ih =>
      intro c hc
      simp only [hexChars, List.mem_cons] at hc
      rcases hc with h | h | h
      · exact h ▸ isHexChar_hexDigitChar (Nat.mod_lt _ (by norm_num))
      · exact h ▸ isHexChar_hexDigitChar (Nat.mod_lt _ (by norm_num))
      · exact ih c h

theorem sha256_length (m : List Nat) : (sha256 m).length = 32 := by
  simp [sha256, word4]

theorem hmacSha256_length (k m : List Nat) : (hmacSha256 k m).length = 32 :=
  sha256_length _

theorem hexOfBytes_length (l : List Nat) : (hexOfBytes l).length = 2 * l.length := by
  show (hexChars l).length = 2 * l.length
  exact hexChars_length l

theorem jsOr_chain (a b c d : String) :
    jsOr (jsOr a (jsOr b c)) d = firstTruthy [a, b, c] d := by
  by_cases ha : a = "" <;> by_cases hb : b = "" <;> by_cases hc : c = "" <;>
    simp [jsOr, firstTruthy, ha, hb, hc]

theorem jsOr_single (a d : String) : jsOr a d = firstTruthy [a] d := by
  by_cases ha : a = "" <;> simp [jsOr, firstTruthy, ha]

theorem createChallenge_requests (tp : Transport) (t : Option Int) :
    (createChallenge tp t).2 = [Request.create { ttl := jsOrInt t 30 }] := by
  simp only [createChallenge]
  cases tp.create { ttl := jsOrInt t 30 } <;> rfl

theorem jsOrInt_ne_zero (t : Option Int) : jsOrInt t 30 ≠ 0 := by
  match t with
  | none => decide
  | some v =>
      by_cases hv : v = 0 <;> simp [jsOrInt, hv]

/-!
## The claims
-/

/-- Claim C5: for every challenge and secret, generateResponse with method
"hmac" returns the hex-encoded HMAC-SHA256 of the challenge keyed by the
secret, and with method "hash" the hex-encoded SHA-256 digest of the
concatenation challenge ++ secret; both are deterministic (equal inputs
give equal outputs) and the output is a 64-character hex string. -/
theorem generateResponse_hmac_hash_correct (secret challenge : String) (cd : Option JsValue) :
    generateResponse secret challenge "hmac" cd =
        .ok (hexOfBytes (hmacSha256 (strBytes secret) (strBytes challenge)))
    ∧ generateResponse secret challenge "hash" cd =
        .ok (hexOfBytes (sha256 (strBytes (challenge ++ secret))))
    ∧ (hexOfBytes (hmacSha256 (strBytes secret) (strBytes challenge))).length = 64
    ∧ (hexOfBytes (sha256 (strBytes (challenge ++ secret)))).length = 64
    ∧ (∀ c ∈ (hexOfBytes (hmacSha256 (strBytes secret) (strBytes challenge))).toList,
         isHexChar c = true)
    ∧ (∀ c ∈ (hexOfBytes (sha256 (strBytes (challenge ++ secret)))).toList,
         isHexChar c = true)
    ∧ (∀ s' c', s' = secret → c' = challenge →
         generateResponse s' c' "hmac" cd = generateResponse secret challenge "hmac" cd
         ∧ generateResponse s' c' "hash" cd = generateResponse secret challenge "hash" cd) := by
  refine ⟨rfl, rfl, ?_, ?_, ?_, ?_, ?_⟩
  · rw [hexOfBytes_length, hmacSha256_length]
  · rw [hexOfBytes_length, sha256_length]
  · exact hexChars_hex _
  · exact hexChars_hex _
  · intro s' c' hs hc
    subst hs; subst hc
    exact ⟨rfl, rfl⟩

/-- Claim C5, witness: the theorem applied at secret "k" and challenge
"abc", with the determinism hypotheses discharged by rfl. -/
theorem generateResponse_hmac_hash_correct_w :
    generateResponse "k" "abc" "hmac" none =
        .ok (hexOfBytes (hmacSha256 (strBytes "k") (strBytes "abc")))
    ∧ generateResponse "k" "abc" "hash" none = generateResponse "k" "abc" "hash" none :=
  ⟨(generateResponse_hmac_hash_correct "k" "abc" none).1,
   ((generateResponse_hmac_hash_correct "k" "abc" none).2.2.2.2.2.2 "k" "abc" rfl rfl).2⟩

/-- Claim C7: for every challenge string (and any secret), calling
generateResponse with method "custom" and no customData argument fails
with the missing-custom-data error; being an error, it never returns a
digest. -/
theorem generateResponse_custom_missing (secret challenge : String) :
    generateResponse secret challenge "custom" none = .error missingCustomDataError := rfl

/-- Claim C8: for every method value outside the four known ones,
generateResponse fails with the unknown-method error whose message names
the offending method value. -/
theorem generateResponse_unknown_method (secret challenge method : String) (cd : Option JsValue)
    (h : method ≠ "echo" ∧ method ≠ "hmac" ∧ method ≠ "hash" ∧ method ≠ "custom") :
    generateResponse secret challenge method cd =
      .error { message := "Unknown response method: " ++ method } := by
  obtain ⟨h1, h2, h3, h4⟩ := h
  unfold generateResponse
  split
  all_goals first | rfl | simp_all

/-- Claim C8, witness: method "bogus" yields the error naming "bogus". -/
theorem generateResponse_unknown_method_w :
    generateResponse "sec" "chal" "bogus" none =
      .error { message := "Unknown response method: bogus" } :=
  generateResponse_unknown_method "sec" "chal" "bogus" none
    ⟨by decide, by decide, by decide, by decide⟩

/-- Claim C10: generateResponse with method "custom" throws the
missing-custom-data error for every falsy customData — absent, the empty
string, 0, or false — and conversely a successful custom response implies
the customData was truthy. -/
theorem generateResponse_custom_falsy (secret challenge : String) (cd : Option JsValue) :
    (jsTruthyOpt cd = false →
        generateResponse secret challenge "custom" cd = .error missingCustomDataError)
    ∧ (∀ r, generateResponse secret challenge "custom" cd = .ok r → jsTruthyOpt cd = true) := by
  constructor
  · intro h
    match cd with
    | none => rfl
    | some (.str s) =>
        simp [jsTruthyOpt, jsTruthy] at h
        simp [generateResponse, h]
    | some (.num n) =>
        simp [jsTruthyOpt, jsTruthy] at h
        simp [generateResponse, h]
    | some (.bool b) =>
        simp [jsTruthyOpt, jsTruthy] at h
        simp [generateResponse, h]
  · intro r h
    match cd with
    | none => simp [generateResponse] at h
    | some (.str s) =>
        by_cases hs : s = ""
        · simp [generateResponse, hs] at h
        · simp [jsTruthyOpt, jsTruthy, hs]
    | some (.num n) =>
        by_cases hn : n = 0
        · simp [generateResponse, hn] at h
        · simp [jsTruthyOpt, jsTruthy, hn]
    | some (.bool b) =>
        cases b
        · simp [generateResponse] at h
        · simp [jsTruthyOpt, jsTruthy]
    | some (.obj s) => simp [jsTruthyOpt, jsTruthy]

/-- Claim C10, witness: an explicitly provided empty-string customData is
rejected. -/
theorem generateResponse_custom_falsy_w :
    generateResponse "sec" "chal" "custom" (some (.str "")) = .error missingCustomDataError :=
  (generateResponse_custom_falsy "sec" "chal" (some (.str ""))).1 (by decide)

/-- Claim C9: createChallenge treats a falsy ttl (absent, or the only
falsy integer, 0) as unset and sends ttl = 30; no request it issues ever
carries ttl 0. -/
theorem createChallenge_zero_ttl (tp : Transport) (t : Option Int)
    (h : t = none ∨ t = some 0) :
    (createChallenge tp t).2 = [Request.create { ttl := 30 }]
    ∧ ∀ t' b, Request.create b ∈ (createChallenge tp t').2 → b.ttl ≠ 0 := by
  constructor
  · rcases h with h | h <;> subst h <;> rw [createChallenge_requests] <;> rfl
  · intro t' b hb
    rw [createChallenge_requests] at hb
    simp only [List.mem_singleton, Request.create.injEq] at hb
    subst hb
    exact jsOrInt_ne_zero t'

/-- Claim C9, witness: with ttl absent the request body carries ttl 30. -/
theorem createChallenge_zero_ttl_w :
    (createChallenge tpOk none).2 = [Request.create { ttl := 30 }] :=
  (createChallenge_zero_ttl tpOk none (Or.inl rfl)).1

/-- Claim C6: constructing a client whose apiKey is empty or does not
start with "kc_" fails with the invalid-API-key construction error, in
both construction forms (structured config object and positional string);
the construction model takes no transport, so no network activity is
possible before or during validation. -/
theorem mkKeyClaimClient_rejects (config : ConfigArg) (secret : Option String)
    (h : config.apiKeyOf = "" ∨ strStartsWith config.apiKeyOf "kc_" = false) :
    mkKeyClaimClient config secret = .error invalidApiKeyError := by
  unfold mkKeyClaimClient
  rcases h with h | h <;> simp [h]

/-- Claim C6, witness: the positional form with "invalid-key" and the
object form with "" are both rejected. -/
theorem mkKeyClaimClient_rejects_w :
    mkKeyClaimClient (.str "invalid-key") none = .error invalidApiKeyError
    ∧ mkKeyClaimClient (.obj "" none) none = .error invalidApiKeyError :=
  ⟨mkKeyClaimClient_rejects (.str "invalid-key") none (Or.inr (by decide)),
   mkKeyClaimClient_rejects (.obj "" none) none (Or.inl rfl)⟩

/-- Claim C2: when the create call and the validate call both succeed at
the HTTP level, validate("hmac", 30) issues exactly two remote calls,
creation strictly before validation, passes as response exactly
generateResponse(challenge, "hmac") computed on the returned challenge,
and returns the second call's payload verbatim. -/
theorem validate_success_flow (tp : Transport) (secret : String)
    (cp : CreateChallengeResponse) (vp : ValidateChallengeResponse) (resp : String)
    (hg : generateResponse secret cp.challenge "hmac" none = .ok resp)
    (h1 : tp.create { ttl := 30 } = .ok cp)
    (h2 : tp.validateCall
        { challenge := cp.challenge, response := resp, decryptedChallenge := none } = .ok vp) :
    validate tp secret "hmac" 30 none =
      (.ok vp,
       [Request.create { ttl := 30 },
        Request.validateReq
          { challenge := cp.challenge, response := resp, decryptedChallenge := none }]) := by
  have hj : jsOrInt (some 30) 30 = 30 := rfl
  have e1 : createChallenge tp (some 30) = (.ok cp, [Request.create { ttl := 30 }]) := by
    simp only [createChallenge, hj]
    rw [h1]
  have e2 : validateChallenge tp
      { challenge := cp.challenge, response := resp, decryptedChallenge := none } =
      (.ok vp,
       [Request.validateReq
          { challenge := cp.challenge, response := resp, decryptedChallenge := none }]) := by
    simp only [validateChallenge]
    rw [h2]
  simp only [validate, e1, hg, e2]
  rfl

/-- Claim C2, witness: the theorem at a transport answering challenge
"abc" and then a signed payload, with the generated HMAC response. -/
theorem validate_success_flow_w :
    validate tpHappy "k" "hmac" 30 none =
      (.ok { valid := true, signature := some "sig" },
       [Request.create { ttl := 30 },
        Request.validateReq
          { challenge := "abc"
            response := hexOfBytes (hmacSha256 (strBytes "k") (strBytes "abc"))
            decryptedChallenge := none }]) :=
  validate_success_flow tpHappy "k" { challenge := "abc", expires_in := 30 }
    { valid := true, signature := some "sig" }
    (hexOfBytes (hmacSha256 (strBytes "k") (strBytes "abc"))) rfl rfl rfl

/-- Claim C1, counterexample to the claim as stated: when the create step
fails with a classified error (message "Server error", code "Server
error", statusCode 500), the composite validate does not propagate that
error unchanged — it throws a re-classified error whose code is
"unknown_error" and whose statusCode is gone, so a ClientError classified
by a remote step does not keep its code and statusCode. -/
theorem validate_error_propagation_cex :
    (createChallenge tpCreateFail (some 30)).1 =
        .error { message := "Server error", code := some "Server error", statusCode := some 500 }
    ∧ (validate tpCreateFail "k" "hmac" 30 none).1 =
        .error { message := "Server error", code := some "unknown_error", statusCode := none }
    ∧ ({ message := "Server error", code := some "Server error", statusCode := some 500 }
          : KeyClaimError) ≠
        { message := "Server error", code := some "unknown_error", statusCode := none } := by
  decide

/-- Claim C1, amended: any failure at any of the three steps of validate
propagates as a KeyClaimError that keeps the failed step's message
(falling back to "Validation flow failed" only for an empty message) but
is re-classified by handleError's unknown tier — code becomes
"unknown_error" and statusCode is dropped; the reinterpreted
valid-false outcome of validateChallenge, being a normal return,
propagates verbatim. -/
theorem validate_reclassifies (tp : Transport) (secret method : String) (ttl : Int)
    (cd : Option JsValue) :
    (∀ e, (createChallenge tp (some ttl)).1 = .error e →
       (validate tp secret method ttl cd).1 =
         .error { message := jsOr e.message "Validation flow failed"
                  code := some "unknown_error", statusCode := none })
    ∧ (∀ cp e, (createChallenge tp (some ttl)).1 = .ok cp →
         generateResponse secret cp.challenge method cd = .error e →
         (validate tp secret method ttl cd).1 =
           .error { message := jsOr e.message "Validation flow failed"
                    code := some "unknown_error", statusCode := none })
    ∧ (∀ cp resp e, (createChallenge tp (some ttl)).1 = .ok cp →
         generateResponse secret cp.challenge method cd = .ok resp →
         (validateChallenge tp
            { challenge := cp.challenge, response := resp, decryptedChallenge := none }).1 =
           .error e →
         (validate tp secret method ttl cd).1 =
           .error { message := jsOr e.message "Validation flow failed"
                    code := some "unknown_error", statusCode := none })
    ∧ (∀ cp resp v, (createChallenge tp (some ttl)).1 = .ok cp →
         generateResponse secret cp.challenge method cd = .ok resp →
         (validateChallenge tp
            { challenge := cp.challenge, response := resp, decryptedChallenge := none }).1 =
           .ok v →
         (validate tp secret method ttl cd).1 = .ok v) := by
  refine ⟨?_, ?_, ?_, ?_⟩
  · intro e he
    simp only [validate, he]
    rfl
  · intro cp e hcp hg
    simp only [validate, hcp, hg]
    rfl
  · intro cp resp e hcp hg hv
    simp only [validate, hcp, hg, hv]
    rfl
  · intro cp resp v hcp hg hv
    simp only [validate, hcp, hg, hv]

/-- Claim C1, witness: the amended theorem's first case at the concrete
failing transport. -/
theorem validate_reclassifies_w :
    (validate tpCreateFail "k" "hmac" 30 none).1 =
      .error { message := "Server error", code := some "unknown_error", statusCode := none } :=
  (validate_reclassifies tpCreateFail "k" "hmac" 30 none).1
    { message := "Server error", code := some "Server error", statusCode := some 500 }
    (by decide)

/-- Claim C3, counterexample to the claim as stated: a failed validate
call whose body carries a valid key and a present-but-empty error string
yields the fallback text "Validation failed", not the payload's (empty)
error string — the code chains with JavaScript ||, not presence. -/
theorem validateChallenge_fallback_cex :
    (validateChallenge tpValidateRejectedEmpty { challenge := "c", response := "r" }).1 =
        .ok { valid := false, error := some "Validation failed" }
    ∧ ({ error := some "", hasValid := true } : ErrorBody).error = some ""
    ∧ ("Validation failed" : String) ≠ "" := by
  decide

/-- Claim C3, amended: for every validate-challenge remote call that fails
at the HTTP level with a payload containing a valid field,
validateChallenge does not throw: it returns valid false with the
payload's error string when that string is present and non-empty, and the
fixed fallback text "Validation failed" when it is absent or empty. -/
theorem validateChallenge_reinterprets (tp : Transport) (b : ValidateBody)
    (e : AxiosError) (r : AxiosResponse) (d : ErrorBody)
    (h1 : tp.validateCall b = .error e) (h2 : e.response = some r)
    (h3 : r.data = some d) (h4 : d.hasValid = true) :
    (validateChallenge tp b).1 =
      .ok { valid := false
            error := some (match d.error with
                           | some s => if s = "" then "Validation failed" else s
                           | none => "Validation failed") } := by
  simp only [validateChallenge, h1, h2, h3, h4]
  cases hd : d.error <;> simp [jsOr, optS]

/-- Claim C3, witness: a 400 failure with body error "Invalid response"
is reinterpreted as the negative outcome carrying that string. -/
theorem validateChallenge_reinterprets_w :
    (validateChallenge tpValidateRejected { challenge := "c", response := "r" }).1 =
      .ok { valid := false, error := some "Invalid response" } :=
  validateChallenge_reinterprets tpValidateRejected { challenge := "c", response := "r" }
    _ _ _ rfl rfl rfl rfl

/-- Claim C4, counterexample to the claim as stated: a response body with
a present-but-empty error field and a non-empty message field classifies
with message = body.message, not the present body.error — the tiers chain
with JavaScript || (first non-empty), not by presence; note that the code
field still carries the empty body.error verbatim. -/
theorem handleError_nullish_cex :
    handleError axEmptyError "dflt" =
        { message := "Server error message", code := some "", statusCode := some 500 }
    ∧ ({ error := some "", message := some "Server error message" } : ErrorBody).error = some ""
    ∧ ("Server error message" : String) ≠ "" := by
  decide

/-- Claim C4, amended: handleError applies three tiers in priority order —
with a server response, message is the first non-empty among body.error,
body.message, the transport message and the default message, code is
body.error verbatim (possibly absent or empty) and statusCode the HTTP
status; with a request but no response, the fixed network-error message
and code with no statusCode; otherwise the failure's own message when
non-empty else the default, code "unknown_error", no statusCode. -/
theorem handleError_three_tiers (e : AxiosError) (d : String) :
    (∀ r, e.response = some r →
       handleError e d =
         { message := firstTruthy [optS (r.data.bind ErrorBody.error),
                                   optS (r.data.bind ErrorBody.message), e.message] d
           code := r.data.bind ErrorBody.error
           statusCode := some r.status })
    ∧ (e.response = none → e.request = true →
         handleError e d =
           { message := "Network error: No response received from server"
             code := some "network_error", statusCode := none })
    ∧ (e.response = none → e.request = false →
         handleError e d =
           { message := firstTruthy [e.message] d
             code := some "unknown_error", statusCode := none }) := by
  refine ⟨?_, ?_, ?_⟩
  · intro r hr
    simp only [handleError, hr]
    rw [jsOr_chain]
  · intro hr hq
    simp [handleError, hr, hq]
  · intro hr hq
    simp only [handleError, hr, hq]
    rw [jsOr_single]
    rfl

/-- Claim C4, witness: tier 1 at a 401 failure whose body names
"Unauthorized". -/
theorem handleError_three_tiers_w :
    handleError axServerRejection "Failed to create challenge" =
      { message := "Unauthorized", code := some "Unauthorized", statusCode := some 401 } :=
  (handleError_three_tiers axServerRejection "Failed to create challenge").1
    { status := 401, data := some { error := some "Unauthorized" } } rfl
